import Mathlib

/-!
Shallow embedding of the redirector HTTP server (src/main.go): a catch-all
301 redirect handler behind an access-logging middleware and a
panic-recovery middleware on a gorilla mux router, plus the main routine
with its background serve goroutine, signal wait and bounded graceful
shutdown. Request handling is modelled as pure functions from requests to
a result that is either a finished response or a propagating panic,
together with the list of log lines emitted; the process lifecycle is
modelled as functions of the abstract outcomes (serve error, delivered
signals, whether in-flight requests finish within the graceful timeout).
-/

namespace Redirector

/-- An HTTP request as seen by a handler: method, origin-form path, query
string, body, plus the client address and protocol recorded by the access
log. -/
structure Request where
  method : String
  path : String
  query : String
  body : String
  remoteAddr : String
  proto : String
deriving DecidableEq, Repr

/-- An HTTP response: status code, headers in the order they were set, and
body. -/
structure Response where
  status : Nat
  headers : List (String × String)
  body : String
deriving DecidableEq, Repr

/-- One line emitted to the process log sinks: logrus info/error/fatal
lines, the stack trace dump of logError, and the combined-format access
line of the logging middleware (client address, method, path, protocol,
status code, response size). -/
inductive LogLine where
  | info (msg : String)
  | error (msg : String)
  | errorTrace
  | access (remoteAddr method path proto : String) (status size : Nat)
  | fatal (msg : String)
deriving DecidableEq, Repr

/-- Result of running a handler on a request: either a finished response or
a propagating Go panic carrying its message, in both cases with the log
lines emitted so far. -/
inductive HandlerResult where
  | ok (resp : Response) (logs : List LogLine)
  | panicked (msg : String) (logs : List LogLine)
deriving DecidableEq, Repr

abbrev Handler := Request → HandlerResult

abbrev Middleware := Handler → Handler

/-- First header value set under the given key, as Go Header.Get returns
it. -/
def headerGet (resp : Response) (key : String) : Option String :=
  (resp.headers.find? (fun p => p.fst == key)).map Prod.snd

/-- The response of a finished handler run, none if the run panicked. -/
def responseOf (hr : HandlerResult) : Option Response :=
  match hr with
  | .ok resp _ => some resp
  | .panicked _ _ => none

/-- The log lines emitted by a handler run. -/
def logsOf (hr : HandlerResult) : List LogLine :=
  match hr with
  | .ok _ logs => logs
  | .panicked _ logs => logs

/-- Status code of a finished handler run. -/
def resultStatus (hr : HandlerResult) : Option Nat :=
  (responseOf hr).map Response.status

/-- Location header of a finished handler run. -/
def resultLocation (hr : HandlerResult) : Option String :=
  (responseOf hr).bind (fun resp => headerGet resp "Location")

/-- Go net/http status text for the codes this program uses. -/
def statusText (code : Nat) : String :=
  if code == 301 then "Moved Permanently"
  else if code == 500 then "Internal Server Error"
  else if code == 404 then "Not Found"
  else ""

/-- http.StatusMovedPermanently. -/
def statusMovedPermanently : Nat := 301

/-- http.StatusInternalServerError. -/
def statusInternalServerError : Nat := 500

/-- Model of Go http.Redirect for an absolute target URL: set the Location
header to the target, write the given status code, and for GET requests
write the short HTML hint body (HTML escaping of the URL inside the hint
body is elided). -/
def httpRedirect (r : Request) (url : String) (code : Nat) : Response :=
  if r.method == "GET" then
    { status := code
      headers := [("Location", url), ("Content-Type", "text/html; charset=utf-8")]
      body := "<a href=\"" ++ url ++ "\">" ++ statusText code ++ "</a>.\n\n" }
  else
    { status := code
      headers := [("Location", url)]
      body := "" }

/-- Process-wide configuration, set once from the command-line flags. The
graceful timeout is in nanoseconds (a Go time.Duration). -/
structure Config where
  host : String
  redirect : String
  debugOutput : Bool
  wait : Nat
deriving DecidableEq, Repr

/-- defaultGracefulTimeout = 5 * time.Second, in nanoseconds. -/
def defaultGracefulTimeout : Nat := 5000000000

/-- The flag defaults of main. -/
def defaultConfig : Config :=
  { host := "0.0.0.0:8080"
    redirect := "https://google.com"
    debugOutput := false
    wait := defaultGracefulTimeout }

/-- application.catchAllHandler: respond to any request with
http.Redirect to the configured target and status 301. It emits no log
lines and never panics. -/
def catchAllHandler (cfg : Config) : Handler := fun r =>
  .ok (httpRedirect r cfg.redirect statusMovedPermanently) []

/-- application.logError: set the Connection header to close, log the
error text at error severity, optionally log the full stack trace at error
severity, and reply via Go http.Error with the generic message and status
500 (http.Error also sets Content-Type and X-Content-Type-Options; the
trailing newline Fprintln appends to the body is elided). Returns the
response written and the log lines emitted. -/
def logError (err : String) (withTrace : Bool) : Response × List LogLine :=
  ( { status := statusInternalServerError
      headers := [("Connection", "close"),
                  ("Content-Type", "text/plain; charset=utf-8"),
                  ("X-Content-Type-Options", "nosniff")]
      body := "There was an error processing your request" }
  , [LogLine.error err] ++ (if withTrace then [LogLine.errorTrace] else []) )

/-- application.recoverPanic: run the next handler under a deferred
recover; if it panics, convert the recovered value into an error and
answer through logError with a stack trace; otherwise pass the result
through unchanged. -/
def recoverPanic (next : Handler) : Handler := fun r =>
  match next r with
  | .ok resp logs => .ok resp logs
  | .panicked msg logs =>
      .ok (logError msg true).fst (logs ++ (logError msg true).snd)

/-- application.loggingMiddleware, i.e. gorilla CombinedLoggingHandler:
after the wrapped handler completes, append exactly one combined-format
access log line recording the request data and the response status and
size, leaving the response itself unchanged. If the wrapped handler
panics, the panic propagates and no access line is written. -/
def loggingMiddleware (next : Handler) : Handler := fun r =>
  match next r with
  | .ok resp logs =>
      .ok resp (logs ++
        [LogLine.access r.remoteAddr r.method r.path r.proto resp.status resp.body.length])
  | .panicked msg logs => .panicked msg logs

/-- gorilla mux middleware application: Use appends middlewares, and on a
route match the router wraps the matched handler iterating from the last
added middleware to the first, so the first middleware added is the
outermost wrapper. -/
def applyMiddlewares (mws : List Middleware) (h : Handler) : Handler :=
  mws.foldr (fun mw acc => mw acc) h

/-- The middleware chain application.routes registers: loggingMiddleware
added first, recoverPanic second. -/
def middlewareChain (inner : Handler) : Handler :=
  applyMiddlewares [loggingMiddleware, recoverPanic] inner

/-- Go http.NotFoundHandler response, served by mux when no route matches
(middlewares are not applied in that case). -/
def notFoundResponse : Response :=
  { status := 404
    headers := [("Content-Type", "text/plain; charset=utf-8"),
                ("X-Content-Type-Options", "nosniff")]
    body := "404 page not found" }

/-- Match test of the single mux route PathPrefix /: the request path
starts with a slash, i.e. its first character is the slash. -/
def pathMatchesSlashRoute (path : String) : Bool :=
  match path.data with
  | [] => false
  | c :: _ => c == '/'

/-- application.routes: a mux router with the two middlewares and a single
catch-all route PathPrefix / mapped to catchAllHandler. A request whose
path starts with / matches the route and is served by the middleware-
wrapped handler; otherwise mux serves a plain 404. -/
def routes (cfg : Config) : Handler := fun r =>
  if pathMatchesSlashRoute r.path then
    middlewareChain (catchAllHandler cfg) r
  else
    .ok notFoundResponse []

/-- The serving loop: handle the pending requests in order; an unrecovered
panic escapes the loop, dropping the remaining requests, and is reported
as the second component. -/
def serveAll (h : Handler) : List Request → List Response × Option String
  | [] => ([], none)
  | r :: rest =>
    match h r with
    | .ok resp _ =>
        let t := serveAll h rest
        (resp :: t.fst, t.snd)
    | .panicked msg _ => ([], some msg)

/-- Log lines of the background goroutine of main: it runs
srv.ListenAndServe and logs the returned error at error severity whenever
it is non-nil, with no filtering of particular error values. none models
a nil error, some e a non-nil error with text e. -/
def serveGoroutineLogs (serveResult : Option String) : List LogLine :=
  match serveResult with
  | some e => [LogLine.error e]
  | none => []

/-- Go stdlib: the text of http.ErrServerClosed, the error ListenAndServe
returns after Shutdown is called. -/
def errServerClosed : String := "http: Server closed"

/-- Go stdlib: ListenAndServe always returns a non-nil error; after a call
to srv.Shutdown it returns http.ErrServerClosed. -/
def listenAndServeAfterShutdown : Option String := some errServerClosed

/-- Model of srv.Shutdown under a context with the graceful timeout:
returns nil (none) when every in-flight request finishes within the
timeout, and the deadline-exceeded error of the expired context
otherwise. -/
def shutdownResult (finishedInTime : Bool) : Option String :=
  if finishedInTime then none else some "context deadline exceeded"

/-- The tail of main from the point the signal receive returns: call
srv.Shutdown with the timeout context; on a non-nil error log.Fatal logs
the error at fatal severity and exits with code 1, otherwise main logs
shutting down and calls os.Exit 0. Result: exit code and log lines of the
main goroutine. -/
def mainAfterSignal (finishedInTime : Bool) : Nat × List LogLine :=
  match shutdownResult finishedInTime with
  | some e => (1, [LogLine.fatal e])
  | none => (0, [LogLine.info "shutting down"])

/-- A signal main subscribes to via signal.Notify. -/
inductive Signal where
  | sigint
  | sigterm
deriving DecidableEq, Repr

/-- The control flow of main after the serve goroutine is started:
signal.Notify routes every delivered SIGINT/SIGTERM into the channel,
suppressing the default terminate-on-signal behavior, and main performs
exactly one channel receive before running the shutdown tail. The result
is a function of the serve goroutine outcome, the list of delivered
signals and the shutdown outcome: none while no signal has arrived (main
is still blocked on the receive, whatever the serve goroutine did), and
the exit code with the main-goroutine log lines once the first signal
arrives; signals after the first are never received. -/
def mainRun (serveResult : Option String) (sigs : List Signal)
    (finishedInTime : Bool) : Option (Nat × List LogLine) :=
  match serveResult, sigs with
  | _, [] => none
  | _, _ :: _ => some (mainAfterSignal finishedInTime)

end Redirector

namespace Redirector

theorem httpRedirect_status (r : Request) (url : String) (c : Nat) :
    (httpRedirect r url c).status = c := by
  unfold httpRedirect
  split <;> rfl

theorem httpRedirect_location (r : Request) (url : String) (c : Nat) :
    headerGet (httpRedirect r url c) "Location" = some url := by
  unfold httpRedirect
  split <;> simp [headerGet]

theorem middlewareChain_on_ok (next : Handler) (r : Request) (resp : Response)
    (logs : List LogLine) (h : next r = HandlerResult.ok resp logs) :
    middlewareChain next r = HandlerResult.ok resp (logs ++
      [LogLine.access r.remoteAddr r.method r.path r.proto
        resp.status resp.body.length]) := by
  show loggingMiddleware (recoverPanic next) r = _
  simp only [loggingMiddleware, recoverPanic, h]

theorem middlewareChain_on_panic (next : Handler) (r : Request) (msg : String)
    (logs : List LogLine) (h : next r = HandlerResult.panicked msg logs) :
    middlewareChain next r = HandlerResult.ok (logError msg true).fst
      ((logs ++ (logError msg true).snd) ++
        [LogLine.access r.remoteAddr r.method r.path r.proto
          (logError msg true).fst.status (logError msg true).fst.body.length]) := by
  show loggingMiddleware (recoverPanic next) r = _
  simp only [loggingMiddleware, recoverPanic, h]

theorem middlewareChain_ok (next : Handler) (r : Request) :
    ∃ resp logs, middlewareChain next r = HandlerResult.ok resp logs := by
  cases h : next r with
  | ok resp logs =>
    exact ⟨resp, _, middlewareChain_on_ok next r resp logs h⟩
  | panicked msg logs =>
    exact ⟨(logError msg true).fst, _, middlewareChain_on_panic next r msg logs h⟩

/-- Claim C1: for every request, whatever its method, path or query, the
server responds with status 301 and a Location header equal to the
configured redirect target (origin-form request paths start with a
slash). -/
theorem routes_always_redirects (cfg : Config) (r : Request)
    (h : pathMatchesSlashRoute r.path = true) :
    ∃ resp logs, routes cfg r = HandlerResult.ok resp logs ∧
      resp.status = 301 ∧ headerGet resp "Location" = some cfg.redirect := by
  have hroutes : routes cfg r = middlewareChain (catchAllHandler cfg) r := by
    unfold routes
    simp only [h, if_true]
  have hcatch : catchAllHandler cfg r =
      HandlerResult.ok (httpRedirect r cfg.redirect 301) [] := rfl
  rw [hroutes]
  exact ⟨httpRedirect r cfg.redirect 301, _,
    middlewareChain_on_ok (catchAllHandler cfg) r
      (httpRedirect r cfg.redirect 301) [] hcatch,
    httpRedirect_status r cfg.redirect 301,
    httpRedirect_location r cfg.redirect 301⟩

def sampleRequest : Request :=
  { method := "GET"
    path := "/anything"
    query := "x=1"
    body := ""
    remoteAddr := "127.0.0.1:5555"
    proto := "HTTP/1.1" }

/-- Witness for C1 at a concrete request and the default configuration. -/
theorem routes_always_redirects_witness :
    pathMatchesSlashRoute sampleRequest.path = true ∧
    ∃ resp logs, routes defaultConfig sampleRequest = HandlerResult.ok resp logs ∧
      resp.status = 301 ∧ headerGet resp "Location" = some defaultConfig.redirect :=
  ⟨by decide, routes_always_redirects defaultConfig sampleRequest (by decide)⟩

/-- Claim C2: if the wrapped handler panics, the client receives a
complete response with status 500, the fixed body text and header
Connection close, and the panic message plus a full stack trace are logged
at error severity. -/
theorem recoverPanic_on_panic (next : Handler) (r : Request) (msg : String)
    (logs : List LogLine) (h : next r = HandlerResult.panicked msg logs) :
    ∃ resp, recoverPanic next r = HandlerResult.ok resp
        (logs ++ [LogLine.error msg, LogLine.errorTrace]) ∧
      resp.status = 500 ∧
      resp.body = "There was an error processing your request" ∧
      headerGet resp "Connection" = some "close" := by
  refine ⟨(logError msg true).fst, ?_, rfl, rfl, by simp [logError, headerGet]⟩
  simp [recoverPanic, h, logError]

def panickingHandler : Handler := fun _ => HandlerResult.panicked "boom" []

/-- Witness for C2 at a concrete panicking handler and request. -/
theorem recoverPanic_on_panic_witness :
    panickingHandler sampleRequest = HandlerResult.panicked "boom" [] ∧
    ∃ resp, recoverPanic panickingHandler sampleRequest = HandlerResult.ok resp
        ([] ++ [LogLine.error "boom", LogLine.errorTrace]) ∧
      resp.status = 500 ∧
      resp.body = "There was an error processing your request" ∧
      headerGet resp "Connection" = some "close" :=
  ⟨rfl, recoverPanic_on_panic panickingHandler sampleRequest "boom" [] rfl⟩

/-- Claim C3: a panic in the inner handler never escapes the middleware
chain, so the serving loop never crashes and answers every pending
request, whatever the inner handler does. -/
theorem serving_loop_survives (next : Handler) (reqs : List Request) :
    (serveAll (middlewareChain next) reqs).snd = none ∧
    (serveAll (middlewareChain next) reqs).fst.length = reqs.length := by
  induction reqs with
  | nil => exact ⟨rfl, rfl⟩
  | cons r rest ih =>
    obtain ⟨resp, logs, h⟩ := middlewareChain_ok next r
    simp [serveAll, h, ih.1, ih.2]

/-- Claim C4: after the shutdown signal, the process exits 0 when graceful
shutdown completes within the timeout, and exits nonzero through a
fatal-severity log line when the timeout expires first. -/
theorem shutdown_exit_codes :
    (mainAfterSignal true).fst = 0 ∧
    (mainAfterSignal false).fst = 1 ∧
    (mainAfterSignal false).snd = [LogLine.fatal "context deadline exceeded"] :=
  ⟨rfl, rfl, rfl⟩

/-- Claim C5: an asynchronous listen/serve failure is logged at error
severity by the serve goroutine, while the main goroutine is unaffected:
it stays blocked until a signal arrives and its run is identical to the
run without any serve failure, exiting only through the shutdown path. -/
theorem serve_failure_not_fatal (e : String) (sigs : List Signal) (fin : Bool) :
    serveGoroutineLogs (some e) = [LogLine.error e] ∧
    mainRun (some e) [] fin = none ∧
    mainRun (some e) sigs fin = mainRun none sigs fin := by
  refine ⟨rfl, rfl, ?_⟩
  cases sigs <;> rfl

/-- Claim C6: the status and Location header produced by the redirect
handler do not depend on the request at all: any two requests, in
particular two differing only in path, query or body, receive the same
status and the same Location. -/
theorem catchAll_request_independent (cfg : Config) (r1 r2 : Request) :
    resultStatus (catchAllHandler cfg r1) = resultStatus (catchAllHandler cfg r2) ∧
    resultLocation (catchAllHandler cfg r1) = resultLocation (catchAllHandler cfg r2) := by
  constructor
  · simp [resultStatus, responseOf, catchAllHandler, httpRedirect_status]
  · simp [resultLocation, responseOf, catchAllHandler, httpRedirect_location]

/-- Claim C7: on a request where the wrapped handler completes, the
logging middleware leaves the response unchanged and appends exactly one
combined-format access line recording that response. -/
theorem loggingMiddleware_transparent (next : Handler) (r : Request)
    (resp : Response) (logs : List LogLine)
    (h : next r = HandlerResult.ok resp logs) :
    loggingMiddleware next r = HandlerResult.ok resp
      (logs ++ [LogLine.access r.remoteAddr r.method r.path r.proto
        resp.status resp.body.length]) := by
  simp [loggingMiddleware, h]

def okHandler : Handler := fun _ =>
  HandlerResult.ok { status := 200, headers := [], body := "hi" } []

/-- Witness for C7 at a concrete handler and request. -/
theorem loggingMiddleware_transparent_witness :
    okHandler sampleRequest =
      HandlerResult.ok { status := 200, headers := [], body := "hi" } [] ∧
    loggingMiddleware okHandler sampleRequest =
      HandlerResult.ok { status := 200, headers := [], body := "hi" }
        ([] ++ [LogLine.access sampleRequest.remoteAddr sampleRequest.method
          sampleRequest.path sampleRequest.proto 200 2]) :=
  ⟨rfl, loggingMiddleware_transparent okHandler sampleRequest
    { status := 200, headers := [], body := "hi" } [] rfl⟩

/-- Claim C8: on a clean shutdown the serve goroutine still logs an error
line: ListenAndServe returns the non-nil http.ErrServerClosed after
Shutdown, and the goroutine logs every non-nil error without filtering. -/
theorem clean_shutdown_logs_error :
    serveGoroutineLogs listenAndServeAfterShutdown =
      [LogLine.error errServerClosed] ∧
    serveGoroutineLogs listenAndServeAfterShutdown ≠ [] :=
  ⟨rfl, by simp [serveGoroutineLogs, listenAndServeAfterShutdown]⟩

/-- Claim C9: the logging middleware registered first is the outermost
wrapper around panic recovery, so a request whose inner handler panics is
still access-logged, and the access line records the 500 status written by
the recovery middleware. -/
theorem logging_wraps_recovery (next : Handler) (r : Request) (msg : String)
    (logs : List LogLine) (h : next r = HandlerResult.panicked msg logs) :
    (∀ inner : Handler,
      middlewareChain inner = loggingMiddleware (recoverPanic inner)) ∧
    ∃ resp, middlewareChain next r = HandlerResult.ok resp
        (logs ++ [LogLine.error msg, LogLine.errorTrace,
          LogLine.access r.remoteAddr r.method r.path r.proto 500
            resp.body.length]) ∧
      resp.status = 500 := by
  refine ⟨fun inner => rfl, (logError msg true).fst, ?_, rfl⟩
  show loggingMiddleware (recoverPanic next) r = _
  simp [loggingMiddleware, recoverPanic, h, logError, statusInternalServerError]

/-- Witness for C9 at a concrete panicking handler and request. -/
theorem logging_wraps_recovery_witness :
    panickingHandler sampleRequest = HandlerResult.panicked "boom" [] ∧
    ((∀ inner : Handler,
       middlewareChain inner = loggingMiddleware (recoverPanic inner)) ∧
     ∃ resp, middlewareChain panickingHandler sampleRequest =
        HandlerResult.ok resp
          ([] ++ [LogLine.error "boom", LogLine.errorTrace,
            LogLine.access sampleRequest.remoteAddr sampleRequest.method
              sampleRequest.path sampleRequest.proto 500 resp.body.length]) ∧
       resp.status = 500) :=
  ⟨rfl, logging_wraps_recovery panickingHandler sampleRequest "boom" [] rfl⟩

/-- Claim C10: only the first delivered SIGINT/SIGTERM is acted upon: a
run with further signals after the first is identical to the run with just
the first signal, and it follows the graceful shutdown path rather than
terminating on the later signals. -/
theorem extra_signals_ignored (sr : Option String) (s : Signal)
    (rest : List Signal) (fin : Bool) :
    mainRun sr (s :: rest) fin = mainRun sr [s] fin ∧
    mainRun sr (s :: rest) fin = some (mainAfterSignal fin) := by
  cases sr <;> exact ⟨rfl, rfl⟩

end Redirector
